import Mathlib

/-!
Verification of the property search/filter query engine of a real-estate
listings backend (Django REST framework).  The definitions below are a
shallow embedding of PropertyViewSet.get_queryset (properties/views.py)
together with the helpers it uses: its local convert_decimal and
convert_int, Django's parse_date, Python's Decimal string parsing and
arithmetic, and the SQL-level filter semantics of the composed queryset.
Machine-float cosine (math.cos, math.radians) is abstracted by an oracle
function; Decimal values are modelled exactly as rationals extended with
signed infinities and NaNs.
-/

set_option maxRecDepth 8192

deriving instance DecidableEq for Except

namespace Asseton

/-! ### Python string helpers -/

/-- Whitespace characters recognised by Python string splitting and
stripping (ASCII subset; exotic unicode whitespace idealised away). -/
def pyWS (c : Char) : Bool :=
  c = ' ' || c = '\t' || c = '\n' || c = '\r' || c = '\x0b' || c = '\x0c'

/-- Model of Python str.strip on a character list. -/
def stripChars (cs : List Char) : List Char :=
  ((cs.dropWhile pyWS).reverse.dropWhile pyWS).reverse

/-- Model of Python str.strip. -/
def pyStrip (s : String) : String :=
  String.mk (stripChars s.toList)

/-- Auxiliary splitter: Python str.split with no argument splits on runs
of whitespace and never yields empty tokens. -/
def splitWSAux : List Char → List Char → List (List Char)
  | [], acc => if acc.isEmpty then [] else [acc.reverse]
  | c :: cs, acc =>
    if pyWS c then
      if acc.isEmpty then splitWSAux cs [] else acc.reverse :: splitWSAux cs []
    else
      splitWSAux cs (c :: acc)

/-- Model of Python str.split with no separator argument. -/
def pySplit (s : String) : List String :=
  (splitWSAux s.toList []).map String.mk

/-- Lowercasing of a string, modelling Python str.lower (ASCII model). -/
def lowerStr (s : String) : String :=
  String.mk (s.data.map Char.toLower)

/-- Case-insensitive substring containment, modelling the icontains SQL
lookup used throughout get_queryset. -/
def containsCI (hay needle : String) : Bool :=
  let h := hay.data.map Char.toLower
  let n := needle.data.map Char.toLower
  h.tails.any (fun t => n.isPrefixOf t)

/-! ### Python numeric parsing -/

/-- Numeric value of a digit list (most significant digit first). -/
def digitsVal (cs : List Char) : Nat :=
  cs.foldl (fun a c => 10 * a + (c.toNat - 48)) 0

/-- Non-empty and consisting only of decimal digits. -/
def allDigits (cs : List Char) : Bool :=
  !cs.isEmpty && cs.all Char.isDigit

/-- Model of the Python int constructor applied to a string (base 10):
optional surrounding whitespace, optional sign, non-empty digit run
(PEP 515 underscore separators idealised away). -/
def parseIntPy (s : String) : Option Int :=
  let cs := stripChars s.toList
  match cs with
  | '+' :: rest => if allDigits rest then some (digitsVal rest) else none
  | '-' :: rest => if allDigits rest then some (-(digitsVal rest : Int)) else none
  | rest => if allDigits rest then some (digitsVal rest) else none

/-! ### Kernel-computable rational operations.  The field operations of
the core Rat type do not reduce inside the proof checker, while Rat.divInt
does; the embedding therefore computes with the divInt forms below, each
proved equal to the corresponding field operation. -/

/-- Addition of rationals through Rat.divInt. -/
def qAdd (a b : ℚ) : ℚ :=
  Rat.divInt (a.num * (b.den : ℤ) + b.num * (a.den : ℤ)) ((a.den : ℤ) * (b.den : ℤ))

/-- Subtraction of rationals through Rat.divInt. -/
def qSub (a b : ℚ) : ℚ :=
  Rat.divInt (a.num * (b.den : ℤ) - b.num * (a.den : ℤ)) ((a.den : ℤ) * (b.den : ℤ))

/-- Multiplication of rationals through Rat.divInt. -/
def qMul (a b : ℚ) : ℚ :=
  Rat.divInt (a.num * b.num) ((a.den : ℤ) * (b.den : ℤ))

/-- Division of rationals through Rat.divInt (zero denominator gives
zero, as for the field division of Rat). -/
def qDiv (a b : ℚ) : ℚ :=
  Rat.divInt (a.num * (b.den : ℤ)) ((a.den : ℤ) * b.num)

/-- Negation of a rational through Rat.divInt. -/
def qNeg (a : ℚ) : ℚ :=
  Rat.divInt (-a.num) (a.den : ℤ)

theorem qAdd_eq (a b : ℚ) : qAdd a b = a + b := by
  have ha : ((a.den : ℤ)) ≠ 0 := by exact_mod_cast a.den_ne_zero
  have hb : ((b.den : ℤ)) ≠ 0 := by exact_mod_cast b.den_ne_zero
  rw [qAdd, ← Rat.divInt_add_divInt _ _ ha hb, Rat.num_divInt_den, Rat.num_divInt_den]

theorem qSub_eq (a b : ℚ) : qSub a b = a - b := by
  have ha : ((a.den : ℤ)) ≠ 0 := by exact_mod_cast a.den_ne_zero
  have hb : ((b.den : ℤ)) ≠ 0 := by exact_mod_cast b.den_ne_zero
  rw [qSub, ← Rat.divInt_sub_divInt _ _ ha hb, Rat.num_divInt_den, Rat.num_divInt_den]

theorem qMul_eq (a b : ℚ) : qMul a b = a * b := by
  have ha : ((a.den : ℤ)) ≠ 0 := by exact_mod_cast a.den_ne_zero
  have hb : ((b.den : ℤ)) ≠ 0 := by exact_mod_cast b.den_ne_zero
  rw [qMul, ← Rat.divInt_mul_divInt _ _ ha hb, Rat.num_divInt_den, Rat.num_divInt_den]

theorem qDiv_eq (a b : ℚ) : qDiv a b = a / b :=
  (Rat.div_def' a b).symm

theorem qNeg_eq (a : ℚ) : qNeg a = -a :=
  (Rat.neg_def a).symm

/-- Values of the Python Decimal type: exact finite rationals (coefficient
precision and exponent limits idealised away), signed infinities, quiet
NaN and signaling NaN. -/
inductive PyDec where
  | fin (q : ℚ)
  | pinf
  | ninf
  | nanQ
  | nanS
deriving DecidableEq

/-- Splits a character list at the first occurrence of a separator,
failing when the separator does not occur. -/
def splitAtChar (sep : Char) : List Char → Option (List Char × List Char)
  | [] => none
  | c :: cs =>
    if c = sep then some ([], cs)
    else match splitAtChar sep cs with
      | some (a, b) => some (c :: a, b)
      | none => none

/-- Parses the mantissa of a Decimal literal: digit run with an optional
decimal point, at least one digit present overall. -/
def parseMantissa (cs : List Char) : Option ℚ :=
  match splitAtChar '.' cs with
  | none => if allDigits cs then some (Rat.divInt (digitsVal cs) 1) else none
  | some (ip, fp) =>
    if ip.all Char.isDigit && fp.all Char.isDigit && !(ip.isEmpty && fp.isEmpty) then
      some (Rat.divInt (digitsVal (ip ++ fp)) ((10 : ℤ) ^ fp.length))
    else none

/-- Parses a Decimal exponent: optional sign then a non-empty digit run. -/
def parseExp (cs : List Char) : Option Int :=
  match cs with
  | '+' :: rest => if allDigits rest then some (digitsVal rest) else none
  | '-' :: rest => if allDigits rest then some (-(digitsVal rest : Int)) else none
  | rest => if allDigits rest then some (digitsVal rest) else none

/-- Multiplication of a rational by the integer power ten to the k, used
to apply the exponent of a scientific Decimal literal. -/
def qShift (q : ℚ) (k : Int) : ℚ :=
  if 0 ≤ k then qMul q (Rat.divInt ((10 : ℤ) ^ k.toNat) 1)
  else qDiv q (Rat.divInt ((10 : ℤ) ^ (-k).toNat) 1)

/-- Parses an unsigned, already lowercased Decimal body: numeric literal
with optional exponent, or the infinity and NaN keywords. -/
def parseDecBody (cs : List Char) : Option PyDec :=
  if cs = ['i', 'n', 'f'] || cs = ['i', 'n', 'f', 'i', 'n', 'i', 't', 'y'] then
    some PyDec.pinf
  else match cs with
    | 'n' :: 'a' :: 'n' :: rest =>
      if rest.all Char.isDigit then some PyDec.nanQ else none
    | 's' :: 'n' :: 'a' :: 'n' :: rest =>
      if rest.all Char.isDigit then some PyDec.nanS else none
    | _ =>
      match splitAtChar 'e' cs with
      | none => (parseMantissa cs).map PyDec.fin
      | some (m, e) =>
        match parseMantissa m, parseExp e with
        | some q, some k => some (PyDec.fin (qShift q k))
        | _, _ => none

/-- Negation of a Decimal value, used to apply a leading minus sign. -/
def PyDec.neg : PyDec → PyDec
  | .fin q => .fin (qNeg q)
  | .pinf => .ninf
  | .ninf => .pinf
  | .nanQ => .nanQ
  | .nanS => .nanS

/-- Model of the Python Decimal constructor on strings: optional
surrounding whitespace, optional sign, case-insensitive body. -/
def parseDec (s : String) : Option PyDec :=
  let cs := (stripChars s.toList).map Char.toLower
  match cs with
  | '+' :: rest => parseDecBody rest
  | '-' :: rest => (parseDecBody rest).map PyDec.neg
  | rest => parseDecBody rest

/-! ### Calendar dates (django.utils.dateparse.parse_date) -/

/-- A Python datetime.date value. -/
structure PyDate where
  year : Nat
  month : Nat
  day : Nat
deriving DecidableEq

/-- Gregorian leap-year test. -/
def isLeap (y : Nat) : Bool :=
  y % 4 = 0 && (y % 100 ≠ 0 || y % 400 = 0)

/-- Number of days in a month of the proleptic Gregorian calendar. -/
def daysInMonth (y m : Nat) : Nat :=
  if m = 2 then (if isLeap y then 29 else 28)
  else if m = 4 || m = 6 || m = 9 || m = 11 then 30
  else 31

/-- Validity condition enforced by the Python datetime.date constructor. -/
def validDate (y m d : Nat) : Bool :=
  1 ≤ y && 1 ≤ m && m ≤ 12 && 1 ≤ d && d ≤ daysInMonth y m

/-- Matches Django's date_re regular expression: four year digits, a dash,
one or two month digits, a dash, one or two day digits, nothing else. -/
def dateShape (s : String) : Option (Nat × Nat × Nat) :=
  match splitAtChar '-' s.toList with
  | none => none
  | some (ys, rest) =>
    match splitAtChar '-' rest with
    | none => none
    | some (ms, ds) =>
      if ys.all Char.isDigit && ys.length = 4 &&
         ms.all Char.isDigit && decide (1 ≤ ms.length) && decide (ms.length ≤ 2) &&
         ds.all Char.isDigit && decide (1 ≤ ds.length) && decide (ds.length ≤ 2) then
        some (digitsVal ys, digitsVal ms, digitsVal ds)
      else none

/-- Model of django.utils.dateparse.parse_date: strings that do not match
the date shape yield none, and matching strings whose fields do not form a
valid calendar date make the datetime.date constructor raise ValueError,
modelled as an error. -/
def parse_date (s : String) : Except Unit (Option PyDate) :=
  match dateShape s with
  | none => .ok none
  | some (y, m, d) =>
    if validDate y m d then .ok (some ⟨y, m, d⟩) else .error ()

/-- Order-preserving encoding of a calendar date as a day index
(lexicographic in year, month, day; epoch-exact day arithmetic is
idealised, only the relative order of dates matters to the filters). -/
def dateKey (d : PyDate) : Int :=
  (d.year : Int) * 10000 + (d.month : Int) * 100 + (d.day : Int)

/-- Microsecond timestamp at the start of a day, modelling
datetime.combine(parsed_date, time.min) with the timezone idealised. -/
def startOfDayTs (d : PyDate) : Int :=
  dateKey d * 86400000000

/-- Microsecond timestamp at the end of a day, modelling
datetime.combine(parsed_date, time.max), i.e. 23:59:59.999999. -/
def endOfDayTs (d : PyDate) : Int :=
  dateKey d * 86400000000 + 86399999999

/-! ### Decimal arithmetic under the default context (the InvalidOperation
and DivisionByZero traps are enabled: signaling-NaN operands and infinity
minus infinity raise, quiet NaN propagates silently) -/

/-- Division of Decimal values. -/
def PyDec.divE : PyDec → PyDec → Except Unit PyDec
  | .nanS, _ => .error ()
  | _, .nanS => .error ()
  | .nanQ, _ => .ok .nanQ
  | _, .nanQ => .ok .nanQ
  | .pinf, .pinf => .error ()
  | .pinf, .ninf => .error ()
  | .ninf, .pinf => .error ()
  | .ninf, .ninf => .error ()
  | .pinf, .fin q => .ok (if q < 0 then .ninf else .pinf)
  | .ninf, .fin q => .ok (if q < 0 then .pinf else .ninf)
  | .fin _, .pinf => .ok (.fin 0)
  | .fin _, .ninf => .ok (.fin 0)
  | .fin a, .fin b => if b = 0 then .error () else .ok (.fin (qDiv a b))

/-- Subtraction of Decimal values. -/
def PyDec.subE : PyDec → PyDec → Except Unit PyDec
  | .nanS, _ => .error ()
  | _, .nanS => .error ()
  | .nanQ, _ => .ok .nanQ
  | _, .nanQ => .ok .nanQ
  | .pinf, .pinf => .error ()
  | .ninf, .ninf => .error ()
  | .pinf, _ => .ok .pinf
  | .ninf, _ => .ok .ninf
  | .fin _, .pinf => .ok .ninf
  | .fin _, .ninf => .ok .pinf
  | .fin a, .fin b => .ok (.fin (qSub a b))

/-- Addition of Decimal values. -/
def PyDec.addE : PyDec → PyDec → Except Unit PyDec
  | .nanS, _ => .error ()
  | _, .nanS => .error ()
  | .nanQ, _ => .ok .nanQ
  | _, .nanQ => .ok .nanQ
  | .pinf, .ninf => .error ()
  | .ninf, .pinf => .error ()
  | .pinf, _ => .ok .pinf
  | .ninf, _ => .ok .ninf
  | .fin _, .pinf => .ok .pinf
  | .fin _, .ninf => .ok .ninf
  | .fin a, .fin b => .ok (.fin (qAdd a b))

/-- Division by the literal Decimal 111.0, as in
radius_to_use / Decimal of 111.0 on line 371. -/
def PyDec.div111 : PyDec → Except Unit PyDec
  | .fin q => .ok (.fin (qDiv q 111))
  | .pinf => .ok .pinf
  | .ninf => .ok .ninf
  | .nanQ => .ok .nanQ
  | .nanS => .error ()

/-- Multiplication of the literal Decimal 111.0 by a Decimal (line 372). -/
def PyDec.mul111 : PyDec → Except Unit PyDec
  | .fin q => .ok (.fin (qMul 111 q))
  | .pinf => .ok .pinf
  | .ninf => .ok .ninf
  | .nanQ => .ok .nanQ
  | .nanS => .error ()

/-- SQL semantics of the gte lookup against a Decimal bound on a stored
finite coordinate; NaN bounds never compare true. -/
def decGe (x : ℚ) (v : PyDec) : Bool :=
  match v with
  | .fin q => decide (q ≤ x)
  | .pinf => false
  | .ninf => true
  | .nanQ => false
  | .nanS => false

/-- SQL semantics of the lte lookup against a Decimal bound. -/
def decLe (x : ℚ) (v : PyDec) : Bool :=
  match v with
  | .fin q => decide (x ≤ q)
  | .pinf => true
  | .ninf => false
  | .nanQ => false
  | .nanS => false

/-! ### Data model -/

/-- A row of the Property table, with the related values the filters
traverse (property-type name, state/district/city names, feature names,
nearby-places text) flattened in, matching the joins of the view. -/
structure Property where
  id : Int
  property_for : String
  property_ownership : String
  contact_name : String
  state_id : Int
  district_id : Int
  city_id : Int
  state_name : String
  district_name : String
  city_name : String
  title : String
  price : String
  property_type_id : Int
  property_type_name : String
  latitude : Option ℚ
  longitude : Option ℚ
  bedrooms : Int
  bathrooms : Int
  area : Int
  area_unit : String
  description : String
  features : List String
  nearby_places : String
  furnishing : String
  created_at : Int
deriving DecidableEq

/-- Modelled from the spec: the SiteSettings model class is referenced by
the view but is absent from the provided models source; per the
specification it is a singleton holding a decimal filterRadius in
kilometers. -/
structure SiteSettings where
  filter_radius : ℚ
deriving DecidableEq

/-- Modelled from the spec: the default contents of the lazily created
SiteSettings instance (a small positive number of kilometers). -/
def defaultSiteSettings : SiteSettings :=
  { filter_radius := 10 }

/-- Modelled from the spec: SiteSettings.get_settings lazily creates a
default instance when none exists and otherwise returns the singleton;
the second component is the stored singleton row after the call. -/
def get_settings : Option SiteSettings → SiteSettings × Option SiteSettings
  | some s => (s, some s)
  | none => (defaultSiteSettings, some defaultSiteSettings)

/-- The raw query-parameter mapping: one optional raw string per key that
get_queryset reads from request.query_params. -/
structure QueryParams where
  price_min : Option String := none
  price_max : Option String := none
  property_for : Option String := none
  ownership : Option String := none
  area_min : Option String := none
  area_max : Option String := none
  area_unit : Option String := none
  date_from : Option String := none
  date_to : Option String := none
  property_type : Option String := none
  bedrooms_min : Option String := none
  bedrooms_max : Option String := none
  bathrooms_min : Option String := none
  bathrooms_max : Option String := none
  state_id : Option String := none
  district_id : Option String := none
  city_id : Option String := none
  location : Option String := none
  furnishing : Option String := none
  search : Option String := none
  latitude : Option String := none
  longitude : Option String := none
  radius : Option String := none
  lat_min : Option String := none
  lat_max : Option String := none
  lng_min : Option String := none
  lng_max : Option String := none
deriving DecidableEq

/-- The view's convert_decimal helper: Decimal(value) with
InvalidOperation and TypeError mapped to None. -/
def convert_decimal (v : Option String) : Option PyDec :=
  v.bind parseDec

/-- The view's convert_int helper: int(value) with TypeError and
ValueError mapped to None. -/
def convert_int (v : Option String) : Option Int :=
  v.bind parseIntPy

/-- Keys of Property.PROPERTY_FOR_CHOICES. -/
def PROPERTY_FOR_KEYS : List String := ["rent", "sell"]

/-- Keys of Property.OWNERSHIP_CHOICES. -/
def OWNERSHIP_KEYS : List String := ["management", "direct_owner"]

/-- Modelled from the spec: Property.AREA_UNIT_CHOICES is referenced by
the view but absent from the provided models source; per the
specification the enumerated units are sqft and sqm. -/
def AREA_UNIT_KEYS : List String := ["sqft", "sqm"]

/-! ### Parameter interpretation (lines 171-380 of views.py) -/

/-- Keeps a parameter value only when it is truthy in Python, modelling
the bare if tests of the view. -/
def truthyOf (o : Option String) : Option String :=
  match o with
  | some s => if s = "" then none else some s
  | none => none

/-- Lines 228-229: property_for kept when among the enumerated choices. -/
def propertyForOf (p : QueryParams) : Option String :=
  match p.property_for with
  | some v => if PROPERTY_FOR_KEYS.contains v then some v else none
  | none => none

/-- Lines 231-232: ownership kept when among the enumerated choices. -/
def ownershipOf (p : QueryParams) : Option String :=
  match p.ownership with
  | some v => if OWNERSHIP_KEYS.contains v then some v else none
  | none => none

/-- Line 181 and line 238: the area unit defaults to sqft when the
parameter is absent, is lowercased, and is kept only when it is a valid
enumerated unit. -/
def areaUnitOf (p : QueryParams) : Option String :=
  let u := lowerStr (p.area_unit.getD "sqft")
  if AREA_UNIT_KEYS.contains u then some u else none

/-- Lines 241-243: the area lower bound applies only when the unit is
valid. -/
def areaMinOf (p : QueryParams) : Option Int :=
  match areaUnitOf p with
  | some _ => convert_int p.area_min
  | none => none

/-- Lines 245-247: the area upper bound applies only when the unit is
valid. -/
def areaMaxOf (p : QueryParams) : Option Int :=
  match areaUnitOf p with
  | some _ => convert_int p.area_max
  | none => none

/-- Lines 249-253: a truthy date_from is parsed; a parsed date becomes a
start-of-day lower bound on created_at; parse_date may raise. -/
def dateFromTs (o : Option String) : Except Unit (Option Int) :=
  match o with
  | none => .ok none
  | some s =>
    if s = "" then .ok none
    else (parse_date s).map (fun od => od.map startOfDayTs)

/-- Lines 255-259: a truthy date_to becomes an end-of-day upper bound. -/
def dateToTs (o : Option String) : Except Unit (Option Int) :=
  match o with
  | none => .ok none
  | some s =>
    if s = "" then .ok none
    else (parse_date s).map (fun od => od.map endOfDayTs)

/-- Line 301: split the search string on whitespace, strip each token and
drop empty tokens. -/
def searchTermsOf (s : String) : List String :=
  ((pySplit s).map pyStrip).filter (fun t => t ≠ "")

/-- Lines 300-302: terms contributed by the search parameter; the empty
list when the parameter is absent, empty, or yields no tokens. -/
def searchParamTerms (o : Option String) : List String :=
  match o with
  | none => []
  | some s => if s = "" then [] else searchTermsOf s

/-- Lines 333-339: whether any latitude/longitude filtering applies. -/
def hasLatLngFilter (p : QueryParams) : Bool :=
  (convert_decimal p.lat_min).isSome ||
  (convert_decimal p.lat_max).isSome ||
  (convert_decimal p.lng_min).isSome ||
  (convert_decimal p.lng_max).isSome ||
  ((convert_decimal p.latitude).isSome && (convert_decimal p.longitude).isSome)

/-- Lines 360-366: the radius from the query parameter when it parses,
otherwise the singleton SiteSettings filter_radius (a finite Decimal). -/
def effectiveRadius (p : QueryParams) (settings : SiteSettings) : PyDec :=
  match convert_decimal p.radius with
  | some rv => rv
  | none => .fin settings.filter_radius

/-- The magnitude threshold beyond which converting a Decimal to a
Python float overflows to an infinity (idealised to two to the 1024). -/
def floatMaxQ : ℚ := Rat.divInt ((2 ^ 1024 : ℕ) : ℤ) 1

/-- Models the Decimal of str of abs of math.cos of math.radians of
float(lat_value) on line 372: float conversion of a signaling NaN, and
math.cos of an infinite float (the float image of an infinite Decimal or
of one with magnitude at least floatMaxQ), raise ValueError; a quiet
NaN propagates; on safe finite input the magnitude of the float cosine of
the angle in radians is supplied by the oracle absCosD. -/
def cosStep (absCosD : ℚ → ℚ) : PyDec → Except Unit PyDec
  | .fin q => if floatMaxQ ≤ q ∨ q ≤ qNeg floatMaxQ then .error () else .ok (.fin (absCosD q))
  | .nanQ => .ok .nanQ
  | .pinf => .error ()
  | .ninf => .error ()
  | .nanS => .error ()

/-- Lines 371-380: the degree conversions of the radius and the four
bounding-box corner values, in source evaluation order. -/
def centerBoxE (absCosD : ℚ → ℚ) (lv gv r : PyDec) :
    Except Unit (PyDec × PyDec × PyDec × PyDec) := do
  let latDeg ← r.div111
  let cosD ← cosStep absCosD lv
  let den ← cosD.mul111
  let lngDeg ← r.divE den
  let a ← lv.subE latDeg
  let b ← lv.addE latDeg
  let c ← gv.subE lngDeg
  let d ← gv.addE lngDeg
  pure (a, b, c, d)

/-- Result of the latitude/longitude filtering block. -/
structure GeoOut where
  active : Bool := false
  latMinG : Option PyDec := none
  latMaxG : Option PyDec := none
  lngMinG : Option PyDec := none
  lngMaxG : Option PyDec := none
  boxG : Option (PyDec × PyDec × PyDec × PyDec) := none
deriving DecidableEq

/-- Lines 323-380: the whole geo filter group of get_queryset. -/
def interpGeo (absCosD : ℚ → ℚ) (p : QueryParams) (settings : SiteSettings) :
    Except Unit GeoOut :=
  if hasLatLngFilter p then
    match convert_decimal p.latitude, convert_decimal p.longitude with
    | some lv, some gv => do
      let box ← centerBoxE absCosD lv gv (effectiveRadius p settings)
      pure { active := true
             latMinG := convert_decimal p.lat_min
             latMaxG := convert_decimal p.lat_max
             lngMinG := convert_decimal p.lng_min
             lngMaxG := convert_decimal p.lng_max
             boxG := some box }
    | _, _ =>
      pure { active := true
             latMinG := convert_decimal p.lat_min
             latMaxG := convert_decimal p.lat_max
             lngMinG := convert_decimal p.lng_min
             lngMaxG := convert_decimal p.lng_max
             boxG := none }
  else
    pure {}

/-- The conjunction of predicates accumulated by get_queryset, one field
per possible filter; none (or an empty term list, or an inactive geo
flag) means the corresponding predicate is absent. -/
structure FilterSpec where
  propertyFor : Option String := none
  ownershipV : Option String := none
  furnishingV : Option String := none
  areaUnitV : Option String := none
  areaMinV : Option Int := none
  areaMaxV : Option Int := none
  createdFrom : Option Int := none
  createdTo : Option Int := none
  propertyTypeV : Option Int := none
  bedroomsMinV : Option Int := none
  bedroomsMaxV : Option Int := none
  bathroomsMinV : Option Int := none
  bathroomsMaxV : Option Int := none
  stateV : Option Int := none
  districtV : Option Int := none
  cityV : Option Int := none
  locationV : Option String := none
  termsV : List String := []
  geoActive : Bool := false
  latMinV : Option PyDec := none
  latMaxV : Option PyDec := none
  lngMinV : Option PyDec := none
  lngMaxV : Option PyDec := none
  centerBox : Option (PyDec × PyDec × PyDec × PyDec) := none
deriving DecidableEq

/-- Assembles the predicate conjunction from the pure per-parameter
builders, the two parsed date bounds and the geo block result. -/
def assembleSpec (p : QueryParams) (cf ct : Option Int) (g : GeoOut) : FilterSpec :=
  { propertyFor := propertyForOf p
    ownershipV := ownershipOf p
    furnishingV := truthyOf p.furnishing
    areaUnitV := areaUnitOf p
    areaMinV := areaMinOf p
    areaMaxV := areaMaxOf p
    createdFrom := cf
    createdTo := ct
    propertyTypeV := convert_int p.property_type
    bedroomsMinV := convert_int p.bedrooms_min
    bedroomsMaxV := convert_int p.bedrooms_max
    bathroomsMinV := convert_int p.bathrooms_min
    bathroomsMaxV := convert_int p.bathrooms_max
    stateV := convert_int p.state_id
    districtV := convert_int p.district_id
    cityV := convert_int p.city_id
    locationV := truthyOf p.location
    termsV := searchParamTerms p.search
    geoActive := g.active
    latMinV := g.latMinG
    latMaxV := g.latMaxG
    lngMinV := g.lngMinG
    lngMaxV := g.lngMaxG
    centerBox := g.boxG }

/-- The parameter-interpretation phase of get_queryset: everything up to
the final order_by and distinct, producing the predicate conjunction.
Raising paths (well-formed but invalid dates; float or cos applied to a
non-finite latitude; invalid Decimal operations on infinities) surface as
errors, in source evaluation order. -/
def interpret (absCosD : ℚ → ℚ) (p : QueryParams) (settings : SiteSettings) :
    Except Unit FilterSpec := do
  let cf ← dateFromTs p.date_from
  let ct ← dateToTs p.date_to
  let g ← interpGeo absCosD p settings
  pure (assembleSpec p cf ct g)

/-! ### Row-level filter semantics -/

/-- Applies an optional predicate: an absent filter passes every row. -/
def checkOpt : Option α → (α → Bool) → Bool
  | none, _ => true
  | some v, f => f v

/-- Follows the spec's words (section 4.3) rather than the source: a
term matches a property when at least one searched field contains it,
the feature branch checking ANY linked feature name independently of
the other terms.  The source's single filter call has different
semantics (termMatchRow and searchPass below); this definition is kept
only to state the original claim C6 against the program. -/
def specTermMatch (t : String) (p : Property) : Bool :=
  containsCI p.title t ||
  containsCI p.description t ||
  containsCI p.property_type_name t ||
  containsCI p.contact_name t ||
  p.features.any (fun f => containsCI f t) ||
  containsCI p.nearby_places t ||
  containsCI p.state_name t ||
  containsCI p.district_name t ||
  containsCI p.city_name t ||
  containsCI p.property_for t ||
  containsCI p.property_ownership t ||
  containsCI p.furnishing t ||
  containsCI p.price t

/-- The feature rows the LEFT OUTER JOIN of the single
filter(combined_query) call pairs a property with: one row per linked
feature, or a single null row when the property has no features (the
join is promoted to an outer join because the feature condition sits
under OR). -/
def featureRows (p : Property) : List (Option String) :=
  match p.features with
  | [] => [none]
  | fs => fs.map some

/-- One search term matched against the thirteen searched columns of
lines 305-319 on a single joined row, in source order; the feature
column holds the name of the joined feature row, and the null row of a
property without features never matches on that column. -/
def termMatchRow (t : String) (p : Property) (f : Option String) : Bool :=
  containsCI p.title t ||
  containsCI p.description t ||
  containsCI p.property_type_name t ||
  containsCI p.contact_name t ||
  (match f with
   | some fn => containsCI fn t
   | none => false) ||
  containsCI p.nearby_places t ||
  containsCI p.state_name t ||
  containsCI p.district_name t ||
  containsCI p.city_name t ||
  containsCI p.property_for t ||
  containsCI p.property_ownership t ||
  containsCI p.furnishing t ||
  containsCI p.price t

/-- Search predicate of the single filter(combined_query) call on line
321: every term's Q-object references the features relation inside one
filter call, so they all share a single join alias (Django
single-call multi-valued semantics), and a property qualifies iff some
one joined feature row satisfies every term's OR-group.  With no terms
the filter is absent and every row passes. -/
def searchPass (terms : List String) (p : Property) : Bool :=
  terms.isEmpty ||
  (featureRows p).any (fun f => terms.all (fun t => termMatchRow t p f))

/-- Explicit bound constraints of the geo group (lines 347-354) on
present coordinates. -/
def boundPass (spec : FilterSpec) (la lo : ℚ) : Bool :=
  checkOpt spec.latMinV (fun v => decGe la v) &&
  checkOpt spec.latMaxV (fun v => decLe la v) &&
  checkOpt spec.lngMinV (fun v => decGe lo v) &&
  checkOpt spec.lngMaxV (fun v => decLe lo v)

/-- The radius bounding-box constraint (lines 375-380) on present
coordinates. -/
def boxPass (box : Option (PyDec × PyDec × PyDec × PyDec)) (la lo : ℚ) : Bool :=
  match box with
  | none => true
  | some (a, b, c, d) => decGe la a && decLe la b && decGe lo c && decLe lo d

/-- The whole geo predicate group: when active it first requires both
coordinates non-null (line 344) and then applies bounds and box. -/
def geoPass (spec : FilterSpec) (p : Property) : Bool :=
  if spec.geoActive then
    match p.latitude, p.longitude with
    | some la, some lo => boundPass spec la lo && boxPass spec.centerBox la lo
    | _, _ => false
  else true

/-- Conjunction of all accumulated predicates on a single property row. -/
def applyFilters (spec : FilterSpec) (p : Property) : Bool :=
  checkOpt spec.propertyFor (fun v => p.property_for == v) &&
  checkOpt spec.ownershipV (fun v => p.property_ownership == v) &&
  checkOpt spec.furnishingV (fun v => lowerStr p.furnishing == lowerStr v) &&
  checkOpt spec.areaUnitV (fun v => p.area_unit == v) &&
  checkOpt spec.areaMinV (fun v => decide (v ≤ p.area)) &&
  checkOpt spec.areaMaxV (fun v => decide (p.area ≤ v)) &&
  checkOpt spec.createdFrom (fun v => decide (v ≤ p.created_at)) &&
  checkOpt spec.createdTo (fun v => decide (p.created_at ≤ v)) &&
  checkOpt spec.propertyTypeV (fun v => decide (p.property_type_id = v)) &&
  checkOpt spec.bedroomsMinV (fun v => decide (v ≤ p.bedrooms)) &&
  checkOpt spec.bedroomsMaxV (fun v => decide (p.bedrooms ≤ v)) &&
  checkOpt spec.bathroomsMinV (fun v => decide (v ≤ p.bathrooms)) &&
  checkOpt spec.bathroomsMaxV (fun v => decide (p.bathrooms ≤ v)) &&
  checkOpt spec.stateV (fun v => decide (p.state_id = v)) &&
  checkOpt spec.districtV (fun v => decide (p.district_id = v)) &&
  checkOpt spec.cityV (fun v => decide (p.city_id = v)) &&
  checkOpt spec.locationV (fun v =>
    containsCI p.city_name v || containsCI p.district_name v || containsCI p.state_name v) &&
  searchPass spec.termsV p &&
  geoPass spec p

/-! ### Ordering, deduplication, entry points -/

/-- Insertion step of the descending sort on created_at. -/
def insertByCreated (p : Property) : List Property → List Property
  | [] => [p]
  | q :: qs =>
    if q.created_at ≤ p.created_at then p :: q :: qs
    else q :: insertByCreated p qs

/-- The order_by on descending created_at of line 382. -/
def sortByCreatedDesc (l : List Property) : List Property :=
  l.foldr insertByCreated []

/-- Accumulator version of SQL DISTINCT on result rows: keeps the first
occurrence of each row. -/
def dedupSeen : List Property → List Property → List Property
  | _, [] => []
  | seen, p :: ps =>
    if p ∈ seen then dedupSeen seen ps
    else p :: dedupSeen (p :: seen) ps

/-- The distinct() of line 382: removes duplicate rows introduced by
relational joins, preserving order. -/
def distinctRows (l : List Property) : List Property :=
  dedupSeen [] l

/-- PropertyViewSet.get_queryset: interprets the parameters into the
predicate conjunction, filters the joined rows, orders descending by
created_at and deduplicates (line 382).  The rows argument is the joined
row multiset the composed SQL query scans: a property reached through
several matching related rows may occur several times in it. -/
def get_queryset (absCosD : ℚ → ℚ) (p : QueryParams) (settings : SiteSettings)
    (rows : List Property) : Except Unit (List Property) :=
  (interpret absCosD p settings).map
    (fun spec => distinctRows (sortByCreatedDesc (rows.filter (applyFilters spec))))

/-- Whether a single property satisfies the composed filter conjunction
of a parameter mapping (false when interpretation raises). -/
def matchesQuery (absCosD : ℚ → ℚ) (p : QueryParams) (settings : SiteSettings)
    (row : Property) : Bool :=
  match interpret absCosD p settings with
  | .ok spec => applyFilters spec row
  | .error _ => false

/-- True when get_queryset consults the SiteSettings singleton: both
center coordinates parse and the radius parameter does not. -/
def needsSettings (p : QueryParams) : Bool :=
  (convert_decimal p.latitude).isSome &&
  (convert_decimal p.longitude).isSome &&
  (convert_decimal p.radius).isNone

/-- The backing store visible to a search: the property rows and the
SiteSettings singleton row (none when not yet created). -/
structure Store where
  propsS : List Property
  settingsRow : Option SiteSettings
deriving DecidableEq

/-- The SiteSettings value a search uses together with the singleton row
after the lookup: get_settings is consulted (lazily creating the row)
exactly when the geo radius fallback requires it; otherwise the row is
untouched and the value is irrelevant to the query. -/
def settingsPair (p : QueryParams) (st : Store) : SiteSettings × Option SiteSettings :=
  if needsSettings p then get_settings st.settingsRow
  else (defaultSiteSettings, st.settingsRow)

/-- A full search invocation against a store: resolves SiteSettings, then
issues the composed query; returns the result list and the store after
the call. -/
def runSearch (absCosD : ℚ → ℚ) (p : QueryParams) (st : Store) :
    Except Unit (List Property × Store) :=
  (get_queryset absCosD p (settingsPair p st).1 st.propsS).map
    (fun l => (l, { propsS := st.propsS, settingsRow := (settingsPair p st).2 }))

/-- Descending order on creation time: the relation holding between any
two successive rows of the result (most recent first). -/
def createdDesc (a b : Property) : Prop :=
  b.created_at ≤ a.created_at

/-- Replaces the coordinates of a property row, leaving every other
column untouched. -/
def setCoords (p : Property) (la lo : Option ℚ) : Property :=
  { p with latitude := la, longitude := lo }

/-! ### Concrete fixtures used in counterexamples and witnesses -/

/-- A unit cosine oracle, correct for instantiating the embedding at
concrete center latitudes of zero. -/
def cosOne : ℚ → ℚ := fun _ => 1

/-- Concrete SiteSettings with a ten kilometer default radius. -/
def settingsTen : SiteSettings := { filter_radius := 10 }

/-- A property listed in square meters, with no coordinates. -/
def pSqm : Property :=
  { id := 1, property_for := "rent", property_ownership := "management",
    contact_name := "Ali", state_id := 1, district_id := 1, city_id := 1,
    state_name := "Punjab", district_name := "Lahore District", city_name := "Lahore",
    title := "Canal view house", price := "25 Lakh", property_type_id := 1,
    property_type_name := "House", latitude := none, longitude := none,
    bedrooms := 3, bathrooms := 2, area := 120, area_unit := "sqm",
    description := "well maintained", features := ["Pool", "Garden"],
    nearby_places := "park - 1km", furnishing := "Furnished", created_at := 100 }

/-- A property listed in square feet (the default unit), with features
Pool and Garden, used for the search and deduplication scenarios. -/
def pPool : Property :=
  { pSqm with id := 2, area_unit := "sqft", title := "Pool villa" }

/-- A property listed in square feet whose features Swimming and
Jacuzzi are the only fields containing those two words, used for the
claim C6 counterexample. -/
def pTwoFeat : Property :=
  { pSqm with id := 3, area_unit := "sqft", features := ["Swimming", "Jacuzzi"] }

/-- Concrete parameters for the claim C1 witness: an invalid area unit
together with an area bound. -/
def c1wParams : QueryParams := { area_unit := some "Acre", area_min := some "100" }

/-- Concrete parameters for the claim C4 witness: a zero-latitude center
with an explicit radius and one explicit bound. -/
def c4Params : QueryParams :=
  { latitude := some "0", longitude := some "74", radius := some "5", lat_min := some "1" }

/-- The filter conjunction that interpreting c4Params produces. -/
def c4Spec : FilterSpec :=
  { areaUnitV := some "sqft", geoActive := true, latMinV := some (.fin 1),
    centerBox := some (.fin (Rat.divInt (-5) 111), .fin (Rat.divInt 5 111),
      .fin (Rat.divInt 8209 111), .fin (Rat.divInt 8219 111)) }

/-- Concrete parameters for the claim C6 witness. -/
def c6Params : QueryParams := { search := some " Lahore   villa " }

/-- The filter conjunction that interpreting c6Params produces. -/
def c6Spec : FilterSpec := { areaUnitV := some "sqft", termsV := ["Lahore", "villa"] }


/-! ### Lemmas on ordering and deduplication -/

theorem mem_dedupSeen {a : Property} :
    ∀ (seen l : List Property), a ∈ dedupSeen seen l ↔ a ∈ l ∧ a ∉ seen := by
  intro seen l
  induction l generalizing seen with
  | nil => simp [dedupSeen]
  | cons p ps ih =>
    by_cases hp : p ∈ seen
    · rw [show dedupSeen seen (p :: ps) = dedupSeen seen ps from if_pos hp, ih,
        List.mem_cons]
      constructor
      · rintro ⟨h1, h2⟩
        exact ⟨Or.inr h1, h2⟩
      · rintro ⟨h1 | h1, h2⟩
        · subst h1
          exact absurd hp h2
        · exact ⟨h1, h2⟩
    · rw [show dedupSeen seen (p :: ps) = p :: dedupSeen (p :: seen) ps from if_neg hp,
        List.mem_cons, ih, List.mem_cons, List.mem_cons]
      by_cases hap : a = p
      · simp [hap, hp]
      · simp [hap]

theorem nodup_dedupSeen : ∀ (seen l : List Property), (dedupSeen seen l).Nodup := by
  intro seen l
  induction l generalizing seen with
  | nil => simp [dedupSeen]
  | cons p ps ih =>
    by_cases hp : p ∈ seen
    · rw [show dedupSeen seen (p :: ps) = dedupSeen seen ps from if_pos hp]
      exact ih seen
    · rw [show dedupSeen seen (p :: ps) = p :: dedupSeen (p :: seen) ps from if_neg hp]
      refine List.Pairwise.cons ?_ (ih (p :: seen))
      intro b hb hbp
      rcases (mem_dedupSeen (p :: seen) ps).mp hb with ⟨_, hnot⟩
      exact hnot (by simp [hbp])

theorem dedupSeen_sublist :
    ∀ (seen l : List Property), List.Sublist (dedupSeen seen l) l := by
  intro seen l
  induction l generalizing seen with
  | nil => simp [dedupSeen]
  | cons p ps ih =>
    by_cases hp : p ∈ seen
    · rw [show dedupSeen seen (p :: ps) = dedupSeen seen ps from if_pos hp]
      exact (ih seen).cons p
    · rw [show dedupSeen seen (p :: ps) = p :: dedupSeen (p :: seen) ps from if_neg hp]
      exact (ih (p :: seen)).cons₂ p

theorem mem_distinctRows {a : Property} {l : List Property} :
    a ∈ distinctRows l ↔ a ∈ l := by
  simp [distinctRows, mem_dedupSeen]

theorem nodup_distinctRows (l : List Property) : (distinctRows l).Nodup :=
  nodup_dedupSeen [] l

theorem distinctRows_sublist (l : List Property) :
    List.Sublist (distinctRows l) l :=
  dedupSeen_sublist [] l

theorem mem_insertByCreated {a p : Property} :
    ∀ l : List Property, a ∈ insertByCreated p l ↔ a = p ∨ a ∈ l := by
  intro l
  induction l with
  | nil => simp [insertByCreated]
  | cons q qs ih =>
    by_cases h : q.created_at ≤ p.created_at
    · simp [insertByCreated, h]
    · simp [insertByCreated, h, ih]
      tauto

theorem pairwise_insertByCreated {p : Property} {l : List Property}
    (h : l.Pairwise createdDesc) : (insertByCreated p l).Pairwise createdDesc := by
  induction l with
  | nil => simp [insertByCreated, createdDesc]
  | cons q qs ih =>
    rcases h with _ | ⟨hq, hqs⟩
    by_cases hle : q.created_at ≤ p.created_at
    · rw [show insertByCreated p (q :: qs) = p :: q :: qs from if_pos hle]
      refine List.Pairwise.cons ?_ (List.Pairwise.cons hq hqs)
      intro b hb
      rcases List.mem_cons.mp hb with rfl | hb
      · exact hle
      · exact le_trans (hq b hb) hle
    · rw [show insertByCreated p (q :: qs) = q :: insertByCreated p qs from if_neg hle]
      refine List.Pairwise.cons ?_ (ih hqs)
      intro b hb
      rcases (mem_insertByCreated qs).mp hb with rfl | hb
      · exact le_of_not_le hle
      · exact hq b hb

theorem mem_sortByCreatedDesc {a : Property} :
    ∀ l : List Property, a ∈ sortByCreatedDesc l ↔ a ∈ l := by
  intro l
  induction l with
  | nil => simp [sortByCreatedDesc]
  | cons p ps ih =>
    simp only [sortByCreatedDesc, List.foldr_cons] at *
    rw [mem_insertByCreated, ih, List.mem_cons]

theorem pairwise_sortByCreatedDesc :
    ∀ l : List Property, (sortByCreatedDesc l).Pairwise createdDesc := by
  intro l
  induction l with
  | nil => simp [sortByCreatedDesc]
  | cons p ps ih =>
    simpa [sortByCreatedDesc] using pairwise_insertByCreated (l := sortByCreatedDesc ps) ih

/-! ### Inversion lemmas for the interpretation phase -/

theorem exbind_ok {α β : Type} (a : α) (f : α → Except Unit β) :
    (Except.ok a >>= f) = f a := rfl

theorem exbind_error {α β : Type} (e : Unit) (f : α → Except Unit β) :
    ((Except.error e : Except Unit α) >>= f) = Except.error e := rfl

theorem exmap_ok {α β : Type} (a : α) (f : α → β) :
    (f <$> (Except.ok a : Except Unit α)) = Except.ok (f a) := rfl

theorem exmap_error {α β : Type} (e : Unit) (f : α → β) :
    (f <$> (Except.error e : Except Unit α)) = Except.error e := rfl

theorem interpret_ok_inv {absCosD : ℚ → ℚ} {p : QueryParams} {settings : SiteSettings}
    {spec : FilterSpec} (h : interpret absCosD p settings = .ok spec) :
    ∃ cf ct g, dateFromTs p.date_from = .ok cf ∧ dateToTs p.date_to = .ok ct ∧
      interpGeo absCosD p settings = .ok g ∧ spec = assembleSpec p cf ct g := by
  cases hcf : dateFromTs p.date_from with
  | error e => simp [interpret, hcf, exbind_ok, exbind_error, exmap_ok, exmap_error] at h
  | ok cf =>
    cases hct : dateToTs p.date_to with
    | error e => simp [interpret, hcf, hct, exbind_ok, exbind_error, exmap_ok, exmap_error] at h
    | ok ct =>
      cases hg : interpGeo absCosD p settings with
      | error e => simp [interpret, hcf, hct, hg, exbind_ok, exbind_error, exmap_ok, exmap_error] at h
      | ok g =>
        refine ⟨cf, ct, g, rfl, rfl, rfl, ?_⟩
        simp [interpret, hcf, hct, hg, exbind_ok, exbind_error, exmap_ok, exmap_error] at h
        exact h.symm

theorem interpGeo_inactive {absCosD : ℚ → ℚ} {p : QueryParams} {settings : SiteSettings}
    (h : hasLatLngFilter p = false) :
    interpGeo absCosD p settings = .ok {} := by
  simp [interpGeo, h]
  rfl

theorem interpGeo_center {absCosD : ℚ → ℚ} {p : QueryParams} {settings : SiteSettings}
    {lv gv : PyDec} {box : PyDec × PyDec × PyDec × PyDec}
    (hlat : convert_decimal p.latitude = some lv)
    (hlng : convert_decimal p.longitude = some gv)
    (hbox : centerBoxE absCosD lv gv (effectiveRadius p settings) = .ok box) :
    interpGeo absCosD p settings =
      .ok { active := true
            latMinG := convert_decimal p.lat_min
            latMaxG := convert_decimal p.lat_max
            lngMinG := convert_decimal p.lng_min
            lngMaxG := convert_decimal p.lng_max
            boxG := some box } := by
  have htrig : hasLatLngFilter p = true := by
    simp [hasLatLngFilter, hlat, hlng]
  simp [interpGeo, htrig, hlat, hlng, hbox, exbind_ok, exbind_error, exmap_ok, exmap_error]

theorem get_queryset_ok_inv {absCosD : ℚ → ℚ} {p : QueryParams} {settings : SiteSettings}
    {rows l : List Property} (h : get_queryset absCosD p settings rows = .ok l) :
    ∃ spec, interpret absCosD p settings = .ok spec ∧
      l = distinctRows (sortByCreatedDesc (rows.filter (applyFilters spec))) := by
  cases hi : interpret absCosD p settings with
  | error e => simp [get_queryset, hi, Except.map] at h
  | ok spec =>
    refine ⟨spec, rfl, ?_⟩
    simp [get_queryset, hi, Except.map] at h
    exact h.symm

theorem mem_query_result {spec : FilterSpec} {rows : List Property} {a : Property} :
    a ∈ distinctRows (sortByCreatedDesc (rows.filter (applyFilters spec))) ↔
      a ∈ rows ∧ applyFilters spec a = true := by
  rw [mem_distinctRows, mem_sortByCreatedDesc, List.mem_filter]

theorem applyFilters_geoPass {spec : FilterSpec} {p : Property}
    (h : applyFilters spec p = true) : geoPass spec p = true := by
  simp only [applyFilters, Bool.and_eq_true] at h
  tauto

theorem applyFilters_terms_split (spec : FilterSpec) (p : Property) :
    applyFilters spec p =
      (applyFilters { spec with termsV := [] } p &&
        searchPass spec.termsV p) := by
  cases hterm : searchPass spec.termsV p with
  | false => simp [applyFilters, hterm]
  | true =>
    have hz : searchPass [] p = true := rfl
    simp [applyFilters, hterm, hz]
    rfl

/-! ### Claim theorems -/

/-- Claim C1 counterexample: with area_unit omitted and every other
parameter omitted as well, the square-meter property is filtered out of
the result: the area unit predicate defaults to sqft instead of being
absent, contradicting the claim that the result then contains properties
of every area unit. -/
theorem c1_area_unit_default_cex :
    ({} : QueryParams).area_unit = none ∧
    ({} : QueryParams).area_min = none ∧
    ({} : QueryParams).area_max = none ∧
    get_queryset cosOne {} settingsTen [pSqm] = .ok [] := by
  refine ⟨rfl, rfl, rfl, by decide⟩

/-- Claim C1 (amended): when area_unit is supplied but its lowercase form
is not a valid enumerated unit, the entire area predicate group (unit
equality, gte, lte) is absent; when area_unit is omitted it defaults to
sqft, so the unit-equality predicate is present with value sqft and the
area_min/area_max bounds coerce and apply as usual. -/
theorem c1_area_unit_amended {absCosD : ℚ → ℚ} {p : QueryParams}
    {settings : SiteSettings} {spec : FilterSpec}
    (hok : interpret absCosD p settings = .ok spec) :
    (∀ u, p.area_unit = some u → AREA_UNIT_KEYS.contains (lowerStr u) = false →
      spec.areaUnitV = none ∧ spec.areaMinV = none ∧ spec.areaMaxV = none) ∧
    (p.area_unit = none →
      spec.areaUnitV = some "sqft" ∧
      spec.areaMinV = convert_int p.area_min ∧
      spec.areaMaxV = convert_int p.area_max) := by
  obtain ⟨cf, ct, g, hcf, hct, hg, rfl⟩ := interpret_ok_inv hok
  constructor
  · intro u hu hinv
    have hinv2 : lowerStr u ∉ AREA_UNIT_KEYS := by simpa using hinv
    have h1 : areaUnitOf p = none := by
      simp [areaUnitOf, hu, hinv2]
    refine ⟨by simpa [assembleSpec] using h1, ?_, ?_⟩
    · simp [assembleSpec, areaMinOf, h1]
    · simp [assembleSpec, areaMaxOf, h1]
  · intro hu
    have h1 : areaUnitOf p = some "sqft" := by
      simp [areaUnitOf, hu]
      decide
    refine ⟨by simpa [assembleSpec] using h1, ?_, ?_⟩
    · simp [assembleSpec, areaMinOf, h1]
    · simp [assembleSpec, areaMaxOf, h1]

/-- Claim C1 witness: at the concrete invalid unit Acre the interpreted
filter has no area predicate at all, by the amended theorem. -/
theorem c1_area_unit_witness :
    interpret cosOne c1wParams settingsTen = .ok {} ∧
    ({} : FilterSpec).areaUnitV = none ∧
    ({} : FilterSpec).areaMinV = none ∧
    ({} : FilterSpec).areaMaxV = none := by
  have h : interpret cosOne c1wParams settingsTen = .ok {} := by decide
  have hc := (c1_area_unit_amended h).1 "Acre" rfl (by decide)
  exact ⟨h, hc.1, hc.2.1, hc.2.2⟩

/-- Claim C2 (code bug evaluation): the input interpretation raises on a
well-formed but invalid calendar date (Django parse_date raises
ValueError on 2021-02-30, uncaught by the view), and on a latitude of
Infinity with a valid longitude (math.cos of an infinite float raises
ValueError), contradicting the claim that no string input can fail. -/
theorem c2_interpretation_raises :
    interpret cosOne { date_from := some "2021-02-30" } settingsTen = .error () ∧
    parse_date "2021-02-30" = .error () ∧
    interpret cosOne { latitude := some "Infinity", longitude := some "74.3" } settingsTen
      = .error () ∧
    get_queryset cosOne { date_from := some "2021-02-30" } settingsTen [pPool]
      = .error () := by
  refine ⟨by decide, by decide, by decide, by decide⟩

/-- Claim C8: price_min and price_max are never read: any query with them
supplied, whatever their values, produces the identical result to the
same query without them, with no possibility of error from them. -/
theorem c8_price_ignored (absCosD : ℚ → ℚ) (p : QueryParams)
    (settings : SiteSettings) (rows : List Property) (v w : Option String) :
    get_queryset absCosD { p with price_min := v, price_max := w } settings rows =
      get_queryset absCosD p settings rows := rfl

/-- Claim C10: supplying the empty string for furnishing, location,
search, date_from or date_to is identical to omitting that parameter: the
falsy value short-circuits the corresponding branch, so no predicate is
applied; in particular an empty furnishing does not select rows whose
furnishing column is empty. -/
theorem c10_empty_string_params (absCosD : ℚ → ℚ) (p : QueryParams)
    (settings : SiteSettings) (rows : List Property) :
    (get_queryset absCosD { p with furnishing := some "" } settings rows =
      get_queryset absCosD { p with furnishing := none } settings rows) ∧
    (get_queryset absCosD { p with location := some "" } settings rows =
      get_queryset absCosD { p with location := none } settings rows) ∧
    (get_queryset absCosD { p with search := some "" } settings rows =
      get_queryset absCosD { p with search := none } settings rows) ∧
    (get_queryset absCosD { p with date_from := some "" } settings rows =
      get_queryset absCosD { p with date_from := none } settings rows) ∧
    (get_queryset absCosD { p with date_to := some "" } settings rows =
      get_queryset absCosD { p with date_to := none } settings rows) :=
  ⟨rfl, rfl, rfl, rfl, rfl⟩


theorem geoPass_none {spec : FilterSpec} {row : Property}
    (hact : spec.geoActive = true) (h : row.latitude = none ∨ row.longitude = none) :
    geoPass spec row = false := by
  rcases hl : row.latitude with _ | la
  · rcases hl2 : row.longitude with _ | lo
    · simp [geoPass, hact, hl, hl2]
    · simp [geoPass, hact, hl, hl2]
  · rcases hl2 : row.longitude with _ | lo
    · simp [geoPass, hact, hl, hl2]
    · rcases h with h | h
      · rw [hl] at h
        cases h
      · rw [hl2] at h
        cases h

theorem interpGeo_ok_active {absCosD : ℚ → ℚ} {p : QueryParams} {settings : SiteSettings}
    {g : GeoOut} (h : interpGeo absCosD p settings = .ok g) :
    g.active = hasLatLngFilter p := by
  cases htrig : hasLatLngFilter p with
  | false =>
    rw [interpGeo_inactive htrig] at h
    injection h with h1
    rw [← h1]
  | true =>
    rcases hl : convert_decimal p.latitude with _ | lv
    · have h2 : interpGeo absCosD p settings =
          .ok { active := true
                latMinG := convert_decimal p.lat_min
                latMaxG := convert_decimal p.lat_max
                lngMinG := convert_decimal p.lng_min
                lngMaxG := convert_decimal p.lng_max
                boxG := none } := by
        simp [interpGeo, htrig, hl, exbind_ok, exbind_error, exmap_ok, exmap_error]
        rfl
      rw [h2] at h
      injection h with h1
      rw [← h1]
    · rcases hl2 : convert_decimal p.longitude with _ | gv
      · have h2 : interpGeo absCosD p settings =
            .ok { active := true
                  latMinG := convert_decimal p.lat_min
                  latMaxG := convert_decimal p.lat_max
                  lngMinG := convert_decimal p.lng_min
                  lngMaxG := convert_decimal p.lng_max
                  boxG := none } := by
          simp [interpGeo, htrig, hl, hl2, exbind_ok, exbind_error, exmap_ok, exmap_error]
          rfl
        rw [h2] at h
        injection h with h1
        rw [← h1]
      · cases hbox : centerBoxE absCosD lv gv (effectiveRadius p settings) with
        | error e =>
          have h2 : interpGeo absCosD p settings = .error e := by
            simp [interpGeo, htrig, hl, hl2, hbox, exbind_ok, exbind_error]
          rw [h2] at h
          cases h
        | ok box =>
          have h2 := @interpGeo_center absCosD p settings lv gv box hl hl2 hbox
          rw [h2] at h
          injection h with h1
          rw [← h1]

/-- Claim C3: for a finite center whose latitude lies strictly between
the poles, a positive radius r, and c the magnitude of the cosine of the
latitude in radians, the radius filter computes exactly the bounding box
with latDegree r/111 and lngDegree r/(111 c) around the center, its row
predicate is exactly membership in that box, the box contains the center,
and it is symmetric around it. -/
theorem c3_geo_box {lat lng r c : ℚ}
    (hlat : |lat| < 90)
    (hc : (c : ℝ) = |Real.cos ((lat : ℝ) * Real.pi / 180)|)
    (hr : 0 < r) :
    centerBoxE (fun _ => c) (.fin lat) (.fin lng) (.fin r) =
      .ok (.fin (lat - r / 111), .fin (lat + r / 111),
           .fin (lng - r / (111 * c)), .fin (lng + r / (111 * c))) ∧
    (∀ pla plo : ℚ,
      boxPass (some (.fin (lat - r / 111), .fin (lat + r / 111),
          .fin (lng - r / (111 * c)), .fin (lng + r / (111 * c)))) pla plo =
        (decide (lat - r / 111 ≤ pla) && decide (pla ≤ lat + r / 111) &&
         decide (lng - r / (111 * c) ≤ plo) && decide (plo ≤ lng + r / (111 * c)))) ∧
    (lat - r / 111 ≤ lat ∧ lat ≤ lat + r / 111 ∧
     lng - r / (111 * c) ≤ lng ∧ lng ≤ lng + r / (111 * c)) ∧
    (lat - (lat - r / 111) = (lat + r / 111) - lat ∧
     lng - (lng - r / (111 * c)) = (lng + r / (111 * c)) - lng) := by
  have hpi : (0 : ℝ) < Real.pi := Real.pi_pos
  have habs : |(lat : ℝ)| < 90 := by exact_mod_cast hlat
  have h90 := abs_lt.mp habs
  have hup : (lat : ℝ) * Real.pi / 180 < Real.pi / 2 := by nlinarith [h90.2, hpi]
  have hlo : -(Real.pi / 2) < (lat : ℝ) * Real.pi / 180 := by nlinarith [h90.1, hpi]
  have hcos : 0 < Real.cos ((lat : ℝ) * Real.pi / 180) :=
    Real.cos_pos_of_mem_Ioo ⟨hlo, hup⟩
  have hcR : (0 : ℝ) < (c : ℝ) := by
    rw [hc]
    exact abs_pos.mpr (ne_of_gt hcos)
  have hcpos : 0 < c := by exact_mod_cast hcR
  have hfm : (90 : ℚ) < floatMaxQ := by
    have h1a : (90 : ℕ) < 2 ^ 7 := by norm_num
    have h1b : (2 : ℕ) ^ 7 ≤ 2 ^ 1024 := Nat.pow_le_pow_right (by norm_num) (by norm_num)
    have h1 : (90 : ℕ) < 2 ^ 1024 := lt_of_lt_of_le h1a h1b
    have h2 : floatMaxQ = (((2 ^ 1024 : ℕ) : ℤ) : ℚ) := by
      rw [floatMaxQ, Rat.divInt_eq_div]
      norm_num
    rw [h2]
    exact_mod_cast h1
  have hlatsmall : ¬(floatMaxQ ≤ lat ∨ lat ≤ qNeg floatMaxQ) := by
    rintro (h | h)
    · have : lat ≤ |lat| := le_abs_self lat
      linarith
    · rw [qNeg_eq] at h
      have : -|lat| ≤ lat := neg_abs_le lat
      linarith
  have h111c : qMul 111 c ≠ 0 := by
    rw [qMul_eq]
    positivity
  have hbox : centerBoxE (fun _ => c) (.fin lat) (.fin lng) (.fin r) =
      .ok (.fin (lat - r / 111), .fin (lat + r / 111),
           .fin (lng - r / (111 * c)), .fin (lng + r / (111 * c))) := by
    simp only [centerBoxE, PyDec.div111, PyDec.mul111, PyDec.divE, PyDec.subE, PyDec.addE,
      cosStep, exbind_ok, exbind_error]
    rw [if_neg hlatsmall]
    simp only [exbind_ok]
    rw [if_neg h111c]
    simp only [exbind_ok, qSub_eq, qAdd_eq, qDiv_eq, qMul_eq]
    rfl
  have hld : 0 < r / 111 := by positivity
  have hgd : 0 < r / (111 * c) := by positivity
  refine ⟨hbox, ?_, ⟨by linarith, by linarith, by linarith, by linarith⟩,
    by ring, by ring⟩
  intro pla plo
  rfl

/-- Claim C3 witness: at the equator with unit cosine and radius 111 the
box is the unit square around the origin and contains the center. -/
theorem c3_geo_box_witness :
    centerBoxE (fun _ => (1 : ℚ)) (.fin 0) (.fin 0) (.fin 111) =
      .ok (.fin ((0 : ℚ) - 111 / 111), .fin ((0 : ℚ) + 111 / 111),
           .fin ((0 : ℚ) - 111 / (111 * 1)), .fin ((0 : ℚ) + 111 / (111 * 1))) ∧
    ((0 : ℚ) - 111 / 111 ≤ 0 ∧ (0 : ℚ) ≤ 0 + 111 / 111) := by
  have h := @c3_geo_box 0 0 111 1 (by norm_num)
    (by push_cast; rw [zero_mul, zero_div, Real.cos_zero, abs_one])
    (by norm_num)
  exact ⟨h.1, h.2.2.1.1, h.2.2.1.2.1⟩

/-- Claim C4: when both center coordinates parse as decimals, the
bounding box stored in the composed filter is built by centerBoxE from
the effective radius, which is the parsed radius parameter when present
and otherwise the SiteSettings filter_radius; the four explicit bound
constraints are retained unchanged, and on rows with coordinates the geo
predicate is the conjunction of the bound constraints and the box. -/
theorem c4_effective_radius {absCosD : ℚ → ℚ} {p : QueryParams}
    {settings : SiteSettings} {spec : FilterSpec} {lv gv : PyDec}
    (hok : interpret absCosD p settings = .ok spec)
    (hlat : convert_decimal p.latitude = some lv)
    (hlng : convert_decimal p.longitude = some gv) :
    ∃ box, centerBoxE absCosD lv gv (effectiveRadius p settings) = .ok box ∧
      spec.centerBox = some box ∧
      spec.latMinV = convert_decimal p.lat_min ∧
      spec.latMaxV = convert_decimal p.lat_max ∧
      spec.lngMinV = convert_decimal p.lng_min ∧
      spec.lngMaxV = convert_decimal p.lng_max ∧
      (∀ row la lo, row.latitude = some la → row.longitude = some lo →
        geoPass spec row = (boundPass spec la lo && boxPass (some box) la lo)) := by
  obtain ⟨cf, ct, g, hcf, hct, hg, hspec⟩ := interpret_ok_inv hok
  have htrig : hasLatLngFilter p = true := by
    simp [hasLatLngFilter, hlat, hlng]
  cases hbox : centerBoxE absCosD lv gv (effectiveRadius p settings) with
  | error e =>
    exfalso
    have h2 : interpGeo absCosD p settings = .error e := by
      simp [interpGeo, htrig, hlat, hlng, hbox, exbind_ok, exbind_error]
    rw [h2] at hg
    cases hg
  | ok box =>
    have h2 := @interpGeo_center absCosD p settings lv gv box hlat hlng hbox
    rw [h2] at hg
    injection hg with h3
    refine ⟨box, rfl, ?_, ?_, ?_, ?_, ?_, ?_⟩
    · rw [hspec]
      simp [assembleSpec, ← h3]
    · rw [hspec]
      simp [assembleSpec, ← h3]
    · rw [hspec]
      simp [assembleSpec, ← h3]
    · rw [hspec]
      simp [assembleSpec, ← h3]
    · rw [hspec]
      simp [assembleSpec, ← h3]
    · intro row la lo hla hlo
      rw [hspec]
      simp [geoPass, assembleSpec, ← h3, hla, hlo]

/-- Claim C4 witness: with latitude 0, longitude 74, radius 5 and an
explicit lat_min of 1, the interpreted filter holds the box of radius 5
kilometers and retains the explicit bound. -/
theorem c4_effective_radius_witness :
    interpret cosOne c4Params settingsTen = .ok c4Spec ∧
    c4Spec.latMinV = convert_decimal c4Params.lat_min ∧
    c4Spec.centerBox = some (.fin (Rat.divInt (-5) 111), .fin (Rat.divInt 5 111),
      .fin (Rat.divInt 8209 111), .fin (Rat.divInt 8219 111)) := by
  have h : interpret cosOne c4Params settingsTen = .ok c4Spec := by decide
  obtain ⟨box, h1, h2, h3, _⟩ :=
    c4_effective_radius h
      (show convert_decimal c4Params.latitude = some (.fin 0) by decide)
      (show convert_decimal c4Params.longitude = some (.fin 74) by decide)
  have hval : centerBoxE cosOne (.fin 0) (.fin 74) (effectiveRadius c4Params settingsTen) =
      .ok (.fin (Rat.divInt (-5) 111), .fin (Rat.divInt 5 111),
        .fin (Rat.divInt 8209 111), .fin (Rat.divInt 8219 111)) := by decide
  rw [hval] at h1
  injection h1 with h1e
  exact ⟨h, h3, by rw [h2, ← h1e]⟩

/-- Claim C5: whenever any geo filter is triggered, a property with a
null coordinate is excluded from the result regardless of every other
parameter; and when no geo filter is triggered, whether a property
matches the composed query does not depend on its coordinates at all. -/
theorem c5_null_coords {absCosD : ℚ → ℚ} {p : QueryParams} {settings : SiteSettings}
    {rows l : List Property}
    (hq : get_queryset absCosD p settings rows = .ok l) :
    (∀ row, hasLatLngFilter p = true → (row.latitude = none ∨ row.longitude = none) →
      row ∉ l) ∧
    (hasLatLngFilter p = false →
      ∀ row la lo, matchesQuery absCosD p settings (setCoords row la lo) =
        matchesQuery absCosD p settings row) := by
  obtain ⟨spec, hi, rfl⟩ := get_queryset_ok_inv hq
  obtain ⟨cf, ct, g, hcf, hct, hg, hspec⟩ := interpret_ok_inv hi
  have hact : spec.geoActive = hasLatLngFilter p := by
    rw [hspec]
    simpa [assembleSpec] using interpGeo_ok_active hg
  constructor
  · intro row htrig hnull hmem
    rw [mem_query_result] at hmem
    have hgp := applyFilters_geoPass hmem.2
    have hfalse := @geoPass_none spec row (by rw [hact, htrig]) hnull
    rw [hfalse] at hgp
    cases hgp
  · intro hfalse row la lo
    have hact2 : spec.geoActive = false := by rw [hact, hfalse]
    simp only [matchesQuery, hi]
    simp [applyFilters, geoPass, hact2, setCoords, searchPass, featureRows, termMatchRow]

/-- Claim C5 witness: a lat_min bound excludes the coordinate-less
property from the concrete result. -/
theorem c5_null_coords_witness :
    get_queryset cosOne { lat_min := some "10" } settingsTen [pSqm] = .ok [] ∧
    pSqm ∉ ([] : List Property) := by
  have h : get_queryset cosOne { lat_min := some "10" } settingsTen [pSqm] = .ok [] := by
    decide
  exact ⟨h, (c5_null_coords h).1 pSqm (by decide) (Or.inl rfl)⟩

/-- Claim C6 counterexample: the property linking the two features
Swimming and Jacuzzi matches every term of the search Swimming Jacuzzi
in the sense of the original claim (each term is contained in some
linked feature name), and the program returns it when search is
omitted; yet the program excludes it under that search, because the
single filter call shares one features join across all terms and no
single feature name contains both words. -/
theorem c6_search_semantics_cex :
    (searchTermsOf "Swimming Jacuzzi").all (fun t => specTermMatch t pTwoFeat) = true ∧
    get_queryset cosOne {} settingsTen [pTwoFeat] = .ok [pTwoFeat] ∧
    get_queryset cosOne { search := some "Swimming Jacuzzi" } settingsTen [pTwoFeat]
      = .ok [] := by
  exact ⟨by decide, by decide, by decide⟩

/-- Claim C6 (amended): the search terms are the whitespace-split,
stripped, non-empty tokens of the search string; the interpreted filter
stores exactly them; a row passes the composed filter iff it passes the
same filter without the search predicate and additionally some single
joined feature row (one linked feature name, or the null row of a
property without features) satisfies every term's OR-group over the
thirteen searched columns — different terms may still be satisfied by
different non-feature fields, but all the term matches that rely on the
feature column must come from that same single feature; an empty term
sequence constrains nothing. -/
theorem c6_search_semantics {absCosD : ℚ → ℚ} {p : QueryParams}
    {settings : SiteSettings} {spec : FilterSpec} {s : String}
    (hok : interpret absCosD p settings = .ok spec)
    (hs : p.search = some s) (row : Property) :
    spec.termsV = searchTermsOf s ∧
    applyFilters spec row =
      (applyFilters { spec with termsV := [] } row &&
        searchPass (searchTermsOf s) row) ∧
    (searchTermsOf s = [] →
      applyFilters spec row = applyFilters { spec with termsV := [] } row) ∧
    (searchTermsOf s ≠ [] →
      (searchPass (searchTermsOf s) row = true ↔
        ∃ f ∈ featureRows row, ∀ t ∈ searchTermsOf s, termMatchRow t row f = true)) := by
  obtain ⟨cf, ct, g, hcf, hct, hg, hspec⟩ := interpret_ok_inv hok
  have h1 : spec.termsV = searchTermsOf s := by
    rw [hspec]
    by_cases hse : s = ""
    · subst hse
      simp [assembleSpec, searchParamTerms, hs]
      rfl
    · simp [assembleSpec, searchParamTerms, hs, hse]
  refine ⟨h1, ?_, ?_, ?_⟩
  · have h2 := applyFilters_terms_split spec row
    rw [h1] at h2
    exact h2
  · intro hnil
    have h2 := applyFilters_terms_split spec row
    rw [h1, hnil] at h2
    simpa [searchPass] using h2
  · intro hne
    have h0 : (searchTermsOf s).isEmpty = false := by
      cases hts : searchTermsOf s with
      | nil => exact absurd hts hne
      | cons a l => rfl
    simp [searchPass, h0, List.any_eq_true, List.all_eq_true]

/-- Claim C6 witness: the spec example string splits into the terms
Lahore and villa, the interpreted filter stores exactly them, and the
composed filter factors into the search-free filter conjoined with the
single-join search predicate on a concrete row. -/
theorem c6_search_semantics_witness :
    interpret cosOne c6Params settingsTen = .ok c6Spec ∧
    c6Spec.termsV = ["Lahore", "villa"] ∧
    applyFilters c6Spec pPool =
      (applyFilters { c6Spec with termsV := [] } pPool &&
        searchPass (searchTermsOf " Lahore   villa ") pPool) := by
  have h : interpret cosOne c6Params settingsTen = .ok c6Spec := by decide
  have hc := c6_search_semantics h rfl pPool
  refine ⟨h, ?_, hc.2.1⟩
  rw [hc.1]
  decide

/-- Claim C7: a successful result is sorted descending by created_at,
contains no duplicate rows (a property reached through several matching
related rows appears exactly once), and contains exactly the scanned rows
that satisfy the composed filter conjunction. -/
theorem c7_order_dedup {absCosD : ℚ → ℚ} {p : QueryParams}
    {settings : SiteSettings} {rows l : List Property}
    (hq : get_queryset absCosD p settings rows = .ok l) :
    l.Pairwise createdDesc ∧ l.Nodup ∧
    (∀ row, row ∈ l ↔ row ∈ rows ∧ matchesQuery absCosD p settings row = true) := by
  obtain ⟨spec, hi, rfl⟩ := get_queryset_ok_inv hq
  refine ⟨?_, nodup_distinctRows _, ?_⟩
  · exact (pairwise_sortByCreatedDesc _).sublist (distinctRows_sublist _)
  · intro row
    rw [mem_query_result]
    simp [matchesQuery, hi]

/-- Claim C7 witness: the property with two matching feature rows appears
exactly once in the concrete result, which is sorted and duplicate
free. -/
theorem c7_order_dedup_witness :
    get_queryset cosOne { search := some "Pool" } settingsTen [pPool, pPool] = .ok [pPool] ∧
    [pPool].Pairwise createdDesc ∧ ([pPool] : List Property).Nodup := by
  have h : get_queryset cosOne { search := some "Pool" } settingsTen [pPool, pPool] =
      .ok [pPool] := by decide
  have hc := c7_order_dedup h
  exact ⟨h, hc.1, hc.2.1⟩

/-- Claim C9 (amended): a search never writes the property collection,
and leaves the whole store unchanged whenever the SiteSettings singleton
already exists; its only store interactions are the get_settings read,
which lazily creates the singleton when it is absent, and the final
composed query. -/
theorem c9_frame {absCosD : ℚ → ℚ} {p : QueryParams} {st : Store}
    {l : List Property} {st2 : Store}
    (h : runSearch absCosD p st = .ok (l, st2)) :
    st2.propsS = st.propsS ∧ (st.settingsRow.isSome = true → st2 = st) := by
  cases hq : get_queryset absCosD p (settingsPair p st).1 st.propsS with
  | error e =>
    rw [runSearch, hq] at h
    simp [Except.map] at h
  | ok l2 =>
    rw [runSearch, hq] at h
    simp only [Except.map, Except.ok.injEq, Prod.mk.injEq] at h
    obtain ⟨h1, h2⟩ := h
    constructor
    · rw [← h2]
    · intro hsome
      rcases hss : st.settingsRow with _ | s
      · rw [hss] at hsome
        cases hsome
      · have hkeep : (settingsPair p st).2 = st.settingsRow := by
          rw [settingsPair]
          by_cases hn : needsSettings p
          · rw [if_pos hn, hss]
            rfl
          · rw [if_neg hn]
        rw [← h2, hkeep]
/-- Claim C9 counterexample: a search on a store with no SiteSettings row
and a valid center without a radius parameter lazily creates the
singleton: the store after the search differs from the store before, so
a search can write shared state. -/
theorem c9_frame_cex :
    runSearch cosOne { latitude := some "10", longitude := some "20" } ⟨[], none⟩ =
      .ok ([], ⟨[], some defaultSiteSettings⟩) ∧
    (⟨[], none⟩ : Store) ≠ ⟨[], some defaultSiteSettings⟩ := by
  exact ⟨by decide, by decide⟩

/-- Claim C9 witness: on a store whose SiteSettings row exists, a search
returns the store exactly as it was. -/
theorem c9_frame_witness :
    runSearch cosOne {} ⟨[pPool], some settingsTen⟩ =
      .ok ([pPool], ⟨[pPool], some settingsTen⟩) ∧
    ((⟨[pPool], some settingsTen⟩ : Store).propsS = [pPool]) := by
  have h : runSearch cosOne {} ⟨[pPool], some settingsTen⟩ =
      .ok ([pPool], ⟨[pPool], some settingsTen⟩) := by decide
  have hc := c9_frame h
  exact ⟨h, by rw [hc.1]⟩


end Asseton
